import Mathlib

/-!
Verification of `src/prefect/tasks/mysql/mysql.py` (MySQLExecute and
MySQLFetch tasks).

The two `run` methods are embedded shallowly as pure Lean functions.  Every
interaction with the database driver (pymysql) is recorded as an `Event` in a
trace, and the driver behaviour (which calls succeed, what they return) is
supplied by a `Driver` oracle structure.  Each `run` returns the trace of
driver calls it performed together with either a result or the Python
exception it raises.
-/

set_option autoImplicit false

namespace MySQLTasks

/-- Rows returned by the driver are abstract; an identifier suffices. -/
abbrev Row := Nat

/-- Driver-level errors (pymysql exceptions) are identified abstractly. -/
abbrev ErrId := Nat

/-- A pymysql cursor class: the two built-ins exported by `pymysql.cursors`
that the task recognises, or any other caller-supplied cursor class /
callable (`custom`). -/
inductive CursorClass where
  | cursor
  | dictCursor
  | custom (id : Nat)
  deriving DecidableEq

/-- The Python value passed as `cursor_type`: per the annotation
`Union[str, Callable]` it is either a string or a callable (cursor class). -/
inductive CursorType where
  | str (s : String)
  | callable (c : CursorClass)
  deriving DecidableEq

/-- Python exceptions the `run` methods can raise: `ValueError`,
`TypeError`, or a driver error re-raised from pymysql. -/
inductive PyErr where
  | valueError (msg : String)
  | typeError (msg : String)
  | driver (e : ErrId)
  deriving DecidableEq

/-- One observable interaction performed by a `run` call: driver calls
(with the arguments the code passes) and debug-level log emissions. -/
inductive Event where
  | connect (host : String) (port : Nat) (user : String) (password : String)
      (db : String) (charset : String) (cursorclass : Option CursorClass)
  | execute (q : String)
  | fetchone
  | fetchmany (n : Int)
  | fetchall
  | commit
  | close
  | logDebug (fmt : String) (arg : String)
  deriving DecidableEq

/-- Oracle describing how the driver behaves during one call: which
operations raise an error (`some e`) and what values successful fetches
return. -/
structure Driver where
  connectErr : Option ErrId
  executeErr : Option ErrId
  executeRows : Nat
  fetchErr : Option ErrId
  fetchoneVal : Option Row
  fetchmanyVal : Int → List Row
  fetchallVal : List Row
  commitErr : Option ErrId

/-- Modelled from the spec: `prefect.utilities.tasks.defaults_from_attrs`
(not under `src/`) merges call-site arguments over stored configuration;
the call-site value wins exactly when it is explicitly provided. -/
def resolve {α : Type} (attr : α) (callArg : Option α) : α :=
  match callArg with
  | some v => v
  | none => attr

/-- Modelled from the spec: resolution of the `query` argument, whose stored
default may itself be absent (Python `None`). -/
def resolveQ (attr : Option String) (callArg : Option String) : Option String :=
  match callArg with
  | some v => some v
  | none => attr

/-- Python truthiness test `not query` for an `Optional[str]`: true for
`None` and for the empty string. -/
def pyFalsy : Option String → Bool
  | none => true
  | some s => s == ""

/-- Configuration stored by `MySQLExecute.__init__`. -/
structure MySQLExecute where
  db_name : String
  user : String
  password : String
  host : String
  port : Nat
  query : Option String
  commit : Bool
  charset : String

/-- The post-validation part of `MySQLExecute.run`: the `pymysql.connect`
call and the try block (execute, optional commit, close, log).  Note the
connect call passes `self.charset`, the constructor attribute, not the
resolved per-call charset. -/
def MySQLExecute.body (self : MySQLExecute) (d : Driver) (qs : String)
    (commitR : Bool) : List Event × Except PyErr Nat :=
  let connEv := Event.connect self.host self.port self.user self.password
      self.db_name self.charset none
  match d.connectErr with
  | some e => ([connEv], .error (.driver e))
  | none =>
    match d.executeErr with
    | some e =>
        ([connEv, .execute qs, .close,
          .logDebug "Execute Error: %s" (toString e)],
         .error (.driver e))
    | none =>
        let executed := d.executeRows
        if commitR then
          match d.commitErr with
          | some e =>
              ([connEv, .execute qs, .commit, .close,
                .logDebug "Execute Error: %s" (toString e)],
               .error (.driver e))
          | none =>
              ([connEv, .execute qs, .commit, .close,
                .logDebug "Execute Results: %s" (toString executed)],
               .ok executed)
        else
          ([connEv, .execute qs, .close,
            .logDebug "Execute Results: %s" (toString executed)],
           .ok executed)

/-- Embedding of `MySQLExecute.run`.  Call-time arguments are `Option`s:
`none` means the caller did not supply the argument, so the constructor
attribute is used (via `defaults_from_attrs`).  Returns the trace of driver
events and either the affected-row count or the raised exception. -/
def MySQLExecute.run (self : MySQLExecute) (d : Driver)
    (query : Option String) (commit : Option Bool) (charset : Option String) :
    List Event × Except PyErr Nat :=
  let q := resolveQ self.query query
  let commitR := resolve self.commit commit
  let _charsetR := resolve self.charset charset
  if pyFalsy q then
    ([], .error (.valueError "A query string must be provided"))
  else
    self.body d (q.getD "") commitR

/-- Configuration stored by `MySQLFetch.__init__`. -/
structure MySQLFetch where
  db_name : String
  user : String
  password : String
  host : String
  port : Nat
  fetch : String
  fetch_count : Int
  query : Option String
  commit : Bool
  charset : String
  cursor_type : CursorType

/-- The `cursor_types` dictionary lookup
`cursor_types.get(cursor_type.lower())` from `MySQLFetch.run`. -/
def cursorTypesGet (s : String) : Option CursorClass :=
  if s == "cursor" then some CursorClass.cursor
  else if s == "dictcursor" then some CursorClass.dictCursor
  else none

/-- Membership test `cursor_class in cursor_types.values()`: only the two
built-in pymysql cursor classes pass. -/
def CursorClass.isBuiltin : CursorClass → Bool
  | .cursor => true
  | .dictCursor => true
  | .custom _ => false

/-- The Python string method `lower()` (on the ASCII fragment relevant to
the recognised cursor names), written over the character list so that it
evaluates by reduction. -/
def pyLower (s : String) : String :=
  String.mk (s.data.map Char.toLower)

/-- Resolution of `cursor_type` to a cursor class in `MySQLFetch.run`:
a callable is taken as-is, a string is looked up lower-cased. -/
def resolveCursorClass : CursorType → Option CursorClass
  | .callable c => some c
  | .str s => cursorTypesGet (pyLower s)

/-- How Python renders the `cursor_type` value inside the f-string of the
`TypeError` message: a string renders as itself, a class as its repr. -/
def CursorType.pyStr : CursorType → String
  | .str s => s
  | .callable .cursor => "<class \u0027pymysql.cursors.Cursor\u0027>"
  | .callable .dictCursor => "<class \u0027pymysql.cursors.DictCursor\u0027>"
  | .callable (.custom id) =>
      "<class \u0027custom.C" ++ toString id ++ "\u0027>"

/-- The `TypeError` message of `MySQLFetch.run`, naming the rejected
`cursor_type` value. -/
def cursorTypeErrMsg (ct : CursorType) : String :=
  "\u0027cursor_type\u0027 should be one of (\u0027cursor\u0027, " ++
    "\u0027dictcursor\u0027) or the callable equivalent, got " ++ ct.pyStr

/-- The `ValueError` message for an invalid `fetch` argument. -/
def fetchErrMsg : String :=
  "The \u0027fetch\u0027 parameter must be one of the following - " ++
    "(\u0027one\u0027, \u0027many\u0027, \u0027all\u0027)"

/-- Value returned by a successful `MySQLFetch.run`: `fetchone` returns a
single row or the empty sentinel of the driver, the other modes a row list. -/
inductive FetchResult where
  | one (r : Option Row)
  | rows (rs : List Row)
  deriving DecidableEq

/-- String rendering of fetch results for the debug log. -/
def FetchResult.pyStr : FetchResult → String
  | .one r => toString r
  | .rows rs => toString rs

/-- The post-validation part of `MySQLFetch.run`: the `pymysql.connect`
call (passing `self.charset`, the constructor attribute, and the resolved
cursor class) and the try block (execute, one fetch call per the resolved
mode, optional commit, close, log). -/
def MySQLFetch.body (self : MySQLFetch) (d : Driver) (qs : String)
    (fetchR : String) (fcR : Int) (commitR : Bool) (cc : CursorClass) :
    List Event × Except PyErr FetchResult :=
  let connEv := Event.connect self.host self.port self.user
      self.password self.db_name self.charset (some cc)
  match d.connectErr with
  | some e => ([connEv], .error (.driver e))
  | none =>
    match d.executeErr with
    | some e =>
        ([connEv, .execute qs, .close,
          .logDebug "Fetch Error: %s" (toString e)],
         .error (.driver e))
    | none =>
      let fev :=
        if fetchR == "all" then Event.fetchall
        else if fetchR == "many" then Event.fetchmany fcR
        else Event.fetchone
      let results :=
        if fetchR == "all" then FetchResult.rows d.fetchallVal
        else if fetchR == "many" then
          FetchResult.rows (d.fetchmanyVal fcR)
        else FetchResult.one d.fetchoneVal
      match d.fetchErr with
      | some e =>
          ([connEv, .execute qs, fev, .close,
            .logDebug "Fetch Error: %s" (toString e)],
           .error (.driver e))
      | none =>
        if commitR then
          match d.commitErr with
          | some e =>
              ([connEv, .execute qs, fev, .commit, .close,
                .logDebug "Fetch Error: %s" (toString e)],
               .error (.driver e))
          | none =>
              ([connEv, .execute qs, fev, .commit, .close,
                .logDebug "Fetch Results: %s" results.pyStr],
               .ok results)
        else
          ([connEv, .execute qs, fev, .close,
            .logDebug "Fetch Results: %s" results.pyStr],
           .ok results)

/-- Embedding of `MySQLFetch.run`.  Same conventions as
`MySQLExecute.run`; additionally validates `fetch` and `cursor_type` and
dispatches one fetch call per the resolved mode. -/
def MySQLFetch.run (self : MySQLFetch) (d : Driver)
    (query : Option String) (fetch : Option String) (fetch_count : Option Int)
    (commit : Option Bool) (charset : Option String)
    (cursor_type : Option CursorType) :
    List Event × Except PyErr FetchResult :=
  let q := resolveQ self.query query
  let fetchR := resolve self.fetch fetch
  let fcR := resolve self.fetch_count fetch_count
  let commitR := resolve self.commit commit
  let _charsetR := resolve self.charset charset
  let ctR := resolve self.cursor_type cursor_type
  if pyFalsy q then
    ([], .error (.valueError "A query string must be provided"))
  else if !(fetchR == "one" || fetchR == "many" || fetchR == "all") then
    ([], .error (.valueError fetchErrMsg))
  else
    match resolveCursorClass ctR with
    | none => ([], .error (.typeError (cursorTypeErrMsg ctR)))
    | some cc =>
      if !cc.isBuiltin then
        ([], .error (.typeError (cursorTypeErrMsg ctR)))
      else
        self.body d (q.getD "") fetchR fcR commitR cc

/-- Classifier for commit events. -/
def Event.isCommit : Event → Bool
  | .commit => true
  | _ => false

/-- Classifier for close events. -/
def Event.isClose : Event → Bool
  | .close => true
  | _ => false

/-- Classifier for connect events. -/
def Event.isConn : Event → Bool
  | .connect .. => true
  | _ => false

/-- Classifier for the three driver fetch calls. -/
def Event.isFetchCall : Event → Bool
  | .fetchone => true
  | .fetchmany _ => true
  | .fetchall => true
  | _ => false

/-- Recognition predicate in the words of the claims: the strings
`cursor` and `dictcursor` matched case-insensitively, or one of the two
built-in cursor classes supplied as a callable. -/
def claimRecognized : CursorType → Bool
  | .str s => pyLower s == "cursor" || pyLower s == "dictcursor"
  | .callable c => c.isBuiltin

/-- The property that every driver error surfaced by a call was logged at
debug level with the given format string before being re-raised. -/
def driverErrLogged {α : Type} (fmt : String)
    (out : List Event × Except PyErr α) : Prop :=
  match out.2 with
  | .error (.driver e) => (Event.logDebug fmt (toString e)) ∈ out.1
  | _ => True

/-- The property that any error surfaced by a call after a successful
connect is one of the driver errors of the oracle, re-raised unchanged
(never wrapped into a different exception kind). -/
def errIsFromDriver {α : Type} (d : Driver)
    (out : List Event × Except PyErr α) : Prop :=
  match out.2 with
  | .error (.driver e) =>
      d.executeErr = some e ∨ d.fetchErr = some e ∨ d.commitErr = some e
  | .error _ => False
  | .ok _ => True

/-- Concrete execute-task configuration used by the concrete instances
below (constructor defaults: no query, no commit, charset utf8mb4). -/
def eTask : MySQLExecute :=
  { db_name := "db", user := "u", password := "pw", host := "h",
    port := 3306, query := none, commit := false, charset := "utf8mb4" }

/-- Concrete fetch-task configuration used by the concrete instances
below (constructor defaults of `MySQLFetch.__init__`). -/
def fTask : MySQLFetch :=
  { db_name := "db", user := "u", password := "pw", host := "h",
    port := 3306, fetch := "one", fetch_count := 10, query := none,
    commit := false, charset := "utf8mb4", cursor_type := .str "cursor" }

/-- A driver on which every operation succeeds. -/
def dOk : Driver :=
  { connectErr := none, executeErr := none, executeRows := 3,
    fetchErr := none, fetchoneVal := some 5,
    fetchmanyVal := fun _ => [1, 2], fetchallVal := [1, 2, 3],
    commitErr := none }

/-- A driver whose execute call raises error 7. -/
def dExecErr : Driver :=
  { dOk with executeErr := some 7 }

/-! Helper lemmas about the post-validation bodies. -/

theorem execute_body_head (self : MySQLExecute) (d : Driver) (qs : String)
    (commitR : Bool) :
    (self.body d qs commitR).1.head? =
      some (Event.connect self.host self.port self.user self.password
        self.db_name self.charset none) := by
  unfold MySQLExecute.body
  cases d.connectErr <;> cases d.executeErr <;> cases commitR <;>
    cases d.commitErr <;> simp

theorem execute_body_close_once (self : MySQLExecute) (d : Driver)
    (qs : String) (commitR : Bool) (hc : d.connectErr = none) :
    (self.body d qs commitR).1.filter Event.isClose = [Event.close] := by
  unfold MySQLExecute.body
  rw [hc]
  cases d.executeErr <;> cases commitR <;> cases d.commitErr <;>
    simp [Event.isClose, List.filter]

theorem execute_body_err_logged (self : MySQLExecute) (d : Driver)
    (qs : String) (commitR : Bool) (hc : d.connectErr = none) :
    driverErrLogged "Execute Error: %s" (self.body d qs commitR) := by
  unfold MySQLExecute.body driverErrLogged
  rw [hc]
  cases d.executeErr <;> cases commitR <;> cases d.commitErr <;>
    simp [List.mem_cons]

theorem execute_body_err_from_driver (self : MySQLExecute) (d : Driver)
    (qs : String) (commitR : Bool) (hc : d.connectErr = none) :
    errIsFromDriver d (self.body d qs commitR) := by
  unfold MySQLExecute.body errIsFromDriver
  rw [hc]
  cases hee : d.executeErr <;> cases commitR <;> cases hco : d.commitErr <;>
    simp [hee, hco]

theorem execute_body_no_commit (self : MySQLExecute) (d : Driver)
    (qs : String) :
    (self.body d qs false).1.filter Event.isCommit = [] := by
  unfold MySQLExecute.body
  cases d.connectErr <;> cases d.executeErr <;>
    simp [Event.isCommit, List.filter]

theorem execute_body_commit_trace (self : MySQLExecute) (d : Driver)
    (qs : String) (hc : d.connectErr = none) (he : d.executeErr = none) :
    (self.body d qs true).1 =
      [Event.connect self.host self.port self.user self.password
        self.db_name self.charset none, .execute qs, .commit, .close,
       match d.commitErr with
       | some e => Event.logDebug "Execute Error: %s" (toString e)
       | none =>
           Event.logDebug "Execute Results: %s" (toString d.executeRows)] := by
  unfold MySQLExecute.body
  rw [hc, he]
  cases d.commitErr <;> simp

theorem fetch_body_head (self : MySQLFetch) (d : Driver) (qs : String)
    (fetchR : String) (fcR : Int) (commitR : Bool) (cc : CursorClass) :
    (self.body d qs fetchR fcR commitR cc).1.head? =
      some (Event.connect self.host self.port self.user self.password
        self.db_name self.charset (some cc)) := by
  unfold MySQLFetch.body
  cases d.connectErr <;> cases d.executeErr <;> cases d.fetchErr <;>
    cases commitR <;> cases d.commitErr <;> simp

theorem fetch_body_close_once (self : MySQLFetch) (d : Driver) (qs : String)
    (fetchR : String) (fcR : Int) (commitR : Bool) (cc : CursorClass)
    (hc : d.connectErr = none) :
    (self.body d qs fetchR fcR commitR cc).1.filter Event.isClose =
      [Event.close] := by
  unfold MySQLFetch.body
  rw [hc]
  cases d.executeErr <;> cases d.fetchErr <;> cases commitR <;>
    cases d.commitErr <;>
    by_cases h1 : (fetchR == "all") = true <;>
    by_cases h2 : (fetchR == "many") = true <;>
    simp [h1, h2, Event.isClose, List.filter]

theorem fetch_body_err_logged (self : MySQLFetch) (d : Driver) (qs : String)
    (fetchR : String) (fcR : Int) (commitR : Bool) (cc : CursorClass)
    (hc : d.connectErr = none) :
    driverErrLogged "Fetch Error: %s"
      (self.body d qs fetchR fcR commitR cc) := by
  unfold MySQLFetch.body driverErrLogged
  rw [hc]
  cases d.executeErr <;> cases d.fetchErr <;> cases commitR <;>
    cases d.commitErr <;>
    by_cases h1 : (fetchR == "all") = true <;>
    by_cases h2 : (fetchR == "many") = true <;>
    simp [h1, h2, List.mem_cons]

theorem fetch_body_err_from_driver (self : MySQLFetch) (d : Driver)
    (qs : String) (fetchR : String) (fcR : Int) (commitR : Bool)
    (cc : CursorClass) (hc : d.connectErr = none) :
    errIsFromDriver d (self.body d qs fetchR fcR commitR cc) := by
  unfold MySQLFetch.body errIsFromDriver
  rw [hc]
  cases hee : d.executeErr <;> cases hfe : d.fetchErr <;> cases commitR <;>
    cases hco : d.commitErr <;>
    by_cases h1 : (fetchR == "all") = true <;>
    by_cases h2 : (fetchR == "many") = true <;>
    simp [h1, h2, hee, hfe, hco]

theorem fetch_body_fetchcalls (self : MySQLFetch) (d : Driver) (qs : String)
    (fetchR : String) (fcR : Int) (commitR : Bool) (cc : CursorClass)
    (hc : d.connectErr = none) (he : d.executeErr = none) :
    (self.body d qs fetchR fcR commitR cc).1.filter Event.isFetchCall =
      [if fetchR == "all" then Event.fetchall
       else if fetchR == "many" then Event.fetchmany fcR
       else Event.fetchone] := by
  unfold MySQLFetch.body
  rw [hc, he]
  cases d.fetchErr <;> cases commitR <;> cases d.commitErr <;>
    by_cases h1 : (fetchR == "all") = true <;>
    by_cases h2 : (fetchR == "many") = true <;>
    simp [h1, h2, Event.isFetchCall, List.filter]

theorem fetch_body_result (self : MySQLFetch) (d : Driver) (qs : String)
    (fetchR : String) (fcR : Int) (commitR : Bool) (cc : CursorClass)
    (hc : d.connectErr = none) (he : d.executeErr = none)
    (hf : d.fetchErr = none) (hcm : d.commitErr = none) :
    (self.body d qs fetchR fcR commitR cc).2 =
      .ok (if fetchR == "all" then FetchResult.rows d.fetchallVal
           else if fetchR == "many" then
             FetchResult.rows (d.fetchmanyVal fcR)
           else FetchResult.one d.fetchoneVal) := by
  unfold MySQLFetch.body
  rw [hc, he, hf]
  cases commitR <;> rw [hcm] <;>
    by_cases h1 : (fetchR == "all") = true <;>
    by_cases h2 : (fetchR == "many") = true <;>
    simp [h1, h2]

theorem fetch_body_no_commit (self : MySQLFetch) (d : Driver) (qs : String)
    (fetchR : String) (fcR : Int) (cc : CursorClass) :
    (self.body d qs fetchR fcR false cc).1.filter Event.isCommit = [] := by
  unfold MySQLFetch.body
  cases d.connectErr <;> cases d.executeErr <;> cases d.fetchErr <;>
    by_cases h1 : (fetchR == "all") = true <;>
    by_cases h2 : (fetchR == "many") = true <;>
    simp [h1, h2, Event.isCommit, List.filter]

theorem fetch_body_commit_trace (self : MySQLFetch) (d : Driver)
    (qs : String) (fetchR : String) (fcR : Int) (cc : CursorClass)
    (hc : d.connectErr = none) (he : d.executeErr = none)
    (hfe : d.fetchErr = none) :
    (self.body d qs fetchR fcR true cc).1 =
      [Event.connect self.host self.port self.user self.password
        self.db_name self.charset (some cc), .execute qs,
       (if fetchR == "all" then Event.fetchall
        else if fetchR == "many" then Event.fetchmany fcR
        else Event.fetchone),
       .commit, .close,
       match d.commitErr with
       | some e => Event.logDebug "Fetch Error: %s" (toString e)
       | none => Event.logDebug "Fetch Results: %s"
           (if fetchR == "all" then (FetchResult.rows d.fetchallVal).pyStr
            else if fetchR == "many" then
              (FetchResult.rows (d.fetchmanyVal fcR)).pyStr
            else (FetchResult.one d.fetchoneVal).pyStr)] := by
  unfold MySQLFetch.body
  rw [hc, he, hfe]
  cases d.commitErr <;>
    by_cases h1 : (fetchR == "all") = true <;>
    by_cases h2 : (fetchR == "many") = true <;>
    simp [h1, h2]

theorem resolve_some {α : Type} (a v : α) : resolve a (some v) = v := rfl

theorem resolve_none {α : Type} (a : α) : resolve a none = a := rfl

/-- A `cursor_type` rejected in the claim sense is rejected by the code:
it either resolves to no cursor class or to a non-built-in one. -/
theorem not_recognized_rejected (ct : CursorType)
    (h : claimRecognized ct = false) :
    resolveCursorClass ct = none ∨
      ∃ c, resolveCursorClass ct = some c ∧ c.isBuiltin = false := by
  cases ct with
  | callable c => exact Or.inr ⟨c, rfl, h⟩
  | str s =>
      left
      simp only [claimRecognized, Bool.or_eq_false_iff] at h
      simp [resolveCursorClass, cursorTypesGet, h.1, h.2]

theorem fetch_run_commit_false (fs : MySQLFetch) (d : Driver)
    (qa : Option String) (f : Option String) (fc : Option Int)
    (ch : Option String) (ct : Option CursorType) :
    (fs.run d qa f fc (some false) ch ct).1.filter Event.isCommit = [] := by
  unfold MySQLFetch.run
  by_cases hq : pyFalsy (resolveQ fs.query qa) = true
  · simp [hq]
  · by_cases hfv : (resolve fs.fetch f == "one" ||
        resolve fs.fetch f == "many" || resolve fs.fetch f == "all") = true
    · cases hcc : resolveCursorClass (resolve fs.cursor_type ct) with
      | none => simp [hq, hfv, hcc]
      | some cc =>
          by_cases hb : cc.isBuiltin = true
          · simp [hq, hfv, hcc, hb, resolve_some, fetch_body_no_commit]
          · simp [hq, hfv, hcc, hb]
    · simp [hq, hfv]

theorem execute_run_commit_false (es : MySQLExecute) (d : Driver)
    (qa : Option String) (ch : Option String) :
    (es.run d qa (some false) ch).1.filter Event.isCommit = [] := by
  unfold MySQLExecute.run
  by_cases hq : pyFalsy (resolveQ es.query qa) = true
  · simp [hq]
  · simp [hq, resolve_some, execute_body_no_commit]

theorem fetch_body_one_ignores_count (self : MySQLFetch) (d : Driver)
    (qs : String) (n n' : Int) (commitR : Bool) (cc : CursorClass) :
    self.body d qs "one" n commitR cc =
      self.body d qs "one" n' commitR cc := by
  rfl

theorem fetch_body_all_ignores_count (self : MySQLFetch) (d : Driver)
    (qs : String) (n n' : Int) (commitR : Bool) (cc : CursorClass) :
    self.body d qs "all" n commitR cc =
      self.body d qs "all" n' commitR cc := by
  rfl

/-- Reduction of `MySQLExecute.run` to its body once the query check
passes. -/
theorem execute_run_eq_body (es : MySQLExecute) (d : Driver) (qstr : String)
    (cm : Option Bool) (ch : Option String) (hq : (qstr == "") = false) :
    es.run d (some qstr) cm ch = es.body d qstr (resolve es.commit cm) := by
  unfold MySQLExecute.run
  simp [resolveQ, pyFalsy, hq]

/-- Reduction of `MySQLFetch.run` to its body once all three validations
pass. -/
theorem fetch_run_eq_body (fs : MySQLFetch) (d : Driver) (qstr : String)
    (f : Option String) (fc : Option Int) (cm : Option Bool)
    (ch : Option String) (ct : Option CursorType) (cc : CursorClass)
    (hq : (qstr == "") = false)
    (hfv : (resolve fs.fetch f == "one" || resolve fs.fetch f == "many" ||
            resolve fs.fetch f == "all") = true)
    (hcc : resolveCursorClass (resolve fs.cursor_type ct) = some cc)
    (hb : cc.isBuiltin = true) :
    fs.run d (some qstr) f fc cm ch ct =
      fs.body d qstr (resolve fs.fetch f) (resolve fs.fetch_count fc)
        (resolve fs.commit cm) cc := by
  unfold MySQLFetch.run
  simp [resolveQ, pyFalsy, hq, hfv, hcc, hb]

/-! Claim theorems. -/

/-- Claim C1 (code bug): the claim states that run opens the connection
using the resolved charset, the per-call value taking precedence.  The
code resolves the per-call charset but passes `self.charset`, the
constructor attribute, to `pymysql.connect`: at constructor charset
utf8mb4 and per-call charset latin1, both tasks connect with utf8mb4
although the resolved charset is latin1. -/
theorem c1_connect_uses_constructor_charset :
    (eTask.run dOk (some "SELECT 1") none (some "latin1")).1.head? =
      some (Event.connect "h" 3306 "u" "pw" "db" "utf8mb4" none) ∧
    (fTask.run dOk (some "SELECT 1") none none none (some "latin1")
        none).1.head? =
      some (Event.connect "h" 3306 "u" "pw" "db" "utf8mb4"
        (some CursorClass.cursor)) ∧
    resolve eTask.charset (some "latin1") = "latin1" ∧
    resolve fTask.charset (some "latin1") = "latin1" ∧
    ("utf8mb4" : String) ≠ "latin1" :=
  ⟨rfl, rfl, rfl, rfl, by decide⟩

/-- Claim C2 counterexample: a caller-supplied callable that is not one of
the two built-in cursor classes (modelled as `custom 0`) is rejected by
`MySQLFetch.run` with the TypeError, before any connection is opened,
contradicting the claim that every callable implementing the
row-construction contract is accepted. -/
theorem c2_custom_callable_rejected :
    fTask.run dOk (some "SELECT 1") none none none none
        (some (CursorType.callable (CursorClass.custom 0))) =
      ([], .error (.typeError
        (cursorTypeErrMsg (CursorType.callable (CursorClass.custom 0))))) :=
  rfl

/-- Claim C2 (amended): a caller-supplied callable is accepted exactly
when it is one of the two built-in cursor classes: such a callable reaches
the connect call carrying that row shape, while any other callable is
rejected with the TypeError naming it, before any connection is opened. -/
theorem c2_callable_acceptance (fs : MySQLFetch) (d : Driver) (qstr : String)
    (f : Option String) (fc : Option Int) (cm : Option Bool)
    (ch : Option String) (c₁ c₂ : CursorClass)
    (hq : (qstr == "") = false)
    (hfv : (resolve fs.fetch f == "one" || resolve fs.fetch f == "many" ||
            resolve fs.fetch f == "all") = true)
    (hb₁ : c₁.isBuiltin = true) (hb₂ : c₂.isBuiltin = false) :
    (fs.run d (some qstr) f fc cm ch
        (some (CursorType.callable c₁))).1.head? =
      some (Event.connect fs.host fs.port fs.user fs.password fs.db_name
        fs.charset (some c₁)) ∧
    fs.run d (some qstr) f fc cm ch (some (CursorType.callable c₂)) =
      ([], .error (.typeError
        (cursorTypeErrMsg (CursorType.callable c₂)))) := by
  constructor
  · rw [fetch_run_eq_body fs d qstr f fc cm ch
        (some (CursorType.callable c₁)) c₁ hq hfv rfl hb₁]
    exact fetch_body_head fs d qstr _ _ _ c₁
  · unfold MySQLFetch.run
    simp [pyFalsy, resolveQ, hq, hfv, resolve_some, resolveCursorClass, hb₂]

/-- Claim C2 witness: the built-in class as a callable is accepted and
reaches connect; the custom callable `custom 5` is rejected. -/
theorem c2_callable_acceptance_witness :
    ((("SELECT 1" : String) == "") = false ∧
     (resolve fTask.fetch none == "one" || resolve fTask.fetch none == "many" ||
      resolve fTask.fetch none == "all") = true ∧
     CursorClass.cursor.isBuiltin = true ∧
     (CursorClass.custom 5).isBuiltin = false) ∧
    ((fTask.run dOk (some "SELECT 1") none none none none
        (some (CursorType.callable CursorClass.cursor))).1.head? =
      some (Event.connect "h" 3306 "u" "pw" "db" "utf8mb4"
        (some CursorClass.cursor)) ∧
     fTask.run dOk (some "SELECT 1") none none none none
        (some (CursorType.callable (CursorClass.custom 5))) =
      ([], .error (.typeError
        (cursorTypeErrMsg (CursorType.callable (CursorClass.custom 5)))))) :=
  ⟨⟨by decide, by decide, by decide, by decide⟩,
    c2_callable_acceptance fTask dOk "SELECT 1" none none none none
      CursorClass.cursor (CursorClass.custom 5) (by decide) (by decide)
      (by decide) (by decide)⟩

/-- Claim C3 counterexample: at the concrete call with no query resolvable
the raised message is capitalised, "A query string must be provided",
differing from the message quoted by the claim. -/
theorem c3_message_differs :
    (eTask.run dOk none none none).2 ≠
      .error (.valueError "a query string must be provided") ∧
    (eTask.run dOk none none none).2 =
      .error (.valueError "A query string must be provided") := by
  refine ⟨?_, rfl⟩
  intro h
  rw [show (eTask.run dOk none none none).2 =
      .error (.valueError "A query string must be provided") from rfl] at h
  simp only [Except.error.injEq, PyErr.valueError.injEq] at h
  exact absurd h (by decide)

/-- Claim C3 (amended): for every task instance, when no query is
resolvable (neither constructor default nor call-time value, the empty
string included), run raises ValueError with message "A query string must
be provided" and performs no driver call at all. -/
theorem c3_missing_query_rejected (es : MySQLExecute) (fs : MySQLFetch)
    (d : Driver) (qe qf : Option String) (f : Option String)
    (fc : Option Int) (cm : Option Bool) (ch : Option String)
    (ct : Option CursorType)
    (he : pyFalsy (resolveQ es.query qe) = true)
    (hf : pyFalsy (resolveQ fs.query qf) = true) :
    es.run d qe cm ch =
      ([], .error (.valueError "A query string must be provided")) ∧
    fs.run d qf f fc cm ch ct =
      ([], .error (.valueError "A query string must be provided")) := by
  constructor
  · unfold MySQLExecute.run
    simp [he]
  · unfold MySQLFetch.run
    simp [hf]

/-- Claim C3 witness: constructor query absent with no call-time query on
the execute task, and an empty call-time query on the fetch task. -/
theorem c3_missing_query_rejected_witness :
    (pyFalsy (resolveQ eTask.query none) = true ∧
     pyFalsy (resolveQ fTask.query (some "")) = true) ∧
    (eTask.run dOk none none none =
      ([], .error (.valueError "A query string must be provided")) ∧
     fTask.run dOk (some "") none none none none none =
      ([], .error (.valueError "A query string must be provided"))) :=
  ⟨⟨by decide, by decide⟩,
    c3_missing_query_rejected eTask fTask dOk none (some "") none none none
      none none (by decide) (by decide)⟩

/-- Claim C4: every `cursor_type` other than the strings cursor and
dictcursor (matched case-insensitively) or one of the two built-in cursor
classes is rejected with the TypeError whose message names the rejected
value, with an empty trace, hence before any connection is opened. -/
theorem c4_unrecognized_cursor_rejected (fs : MySQLFetch) (d : Driver)
    (qstr : String) (f : Option String) (fc : Option Int) (cm : Option Bool)
    (ch : Option String) (ct : Option CursorType)
    (hq : (qstr == "") = false)
    (hfv : (resolve fs.fetch f == "one" || resolve fs.fetch f == "many" ||
            resolve fs.fetch f == "all") = true)
    (hct : claimRecognized (resolve fs.cursor_type ct) = false) :
    fs.run d (some qstr) f fc cm ch ct =
      ([], .error (.typeError
        (cursorTypeErrMsg (resolve fs.cursor_type ct)))) := by
  rcases not_recognized_rejected _ hct with hcc | ⟨c, hcc, hb⟩
  · unfold MySQLFetch.run
    simp [pyFalsy, resolveQ, hq, hfv, hcc]
  · unfold MySQLFetch.run
    simp [pyFalsy, resolveQ, hq, hfv, hcc, hb]

/-- Claim C4 witness: the unrecognised string SSCursor is rejected with
the TypeError naming it. -/
theorem c4_unrecognized_cursor_rejected_witness :
    ((("SELECT 1" : String) == "") = false ∧
     (resolve fTask.fetch none == "one" || resolve fTask.fetch none == "many" ||
      resolve fTask.fetch none == "all") = true ∧
     claimRecognized (resolve fTask.cursor_type
       (some (CursorType.str "SSCursor"))) = false) ∧
    fTask.run dOk (some "SELECT 1") none none none none
        (some (CursorType.str "SSCursor")) =
      ([], .error (.typeError
        (cursorTypeErrMsg (CursorType.str "SSCursor")))) :=
  ⟨⟨by decide, by decide, by decide⟩,
    c4_unrecognized_cursor_rejected fTask dOk "SELECT 1" none none none none
      (some (CursorType.str "SSCursor")) (by decide) (by decide) (by decide)⟩

/-- Claim C5: a resolved fetch outside one/many/all is rejected with the
ValueError listing exactly those three options, with an empty trace (no
connection); and the query check precedes it: with no query resolvable
the query error is raised instead, for the same invalid fetch. -/
theorem c5_invalid_fetch_rejected (fs : MySQLFetch) (d : Driver)
    (q : Option String) (f : Option String) (fc : Option Int)
    (cm : Option Bool) (ch : Option String) (ct : Option CursorType)
    (hq : pyFalsy (resolveQ fs.query q) = false)
    (hfv : (resolve fs.fetch f == "one" || resolve fs.fetch f == "many" ||
            resolve fs.fetch f == "all") = false) :
    fs.run d q f fc cm ch ct = ([], .error (.valueError fetchErrMsg)) ∧
    fetchErrMsg =
      "The 'fetch' parameter must be one of the following - ('one', 'many', 'all')" ∧
    MySQLFetch.run { fs with query := none } d none f fc cm ch ct =
      ([], .error (.valueError "A query string must be provided")) := by
  refine ⟨?_, rfl, rfl⟩
  unfold MySQLFetch.run
  simp [hq, hfv]

/-- Claim C5 witness: the invalid fetch value bogus is rejected with the
ValueError listing the three options. -/
theorem c5_invalid_fetch_rejected_witness :
    (pyFalsy (resolveQ fTask.query (some "SELECT 1")) = false ∧
     (resolve fTask.fetch (some "bogus") == "one" ||
      resolve fTask.fetch (some "bogus") == "many" ||
      resolve fTask.fetch (some "bogus") == "all") = false) ∧
    (fTask.run dOk (some "SELECT 1") (some "bogus") none none none none =
      ([], .error (.valueError fetchErrMsg)) ∧
     fetchErrMsg =
      "The 'fetch' parameter must be one of the following - ('one', 'many', 'all')" ∧
     MySQLFetch.run { fTask with query := none } dOk none (some "bogus") none
        none none none =
      ([], .error (.valueError "A query string must be provided"))) :=
  ⟨⟨by decide, by decide⟩,
    c5_invalid_fetch_rejected fTask dOk (some "SELECT 1") (some "bogus") none
      none none none (by decide) (by decide)⟩

/-- Claim C6: on a successful fetch call the returned rows come from
exactly one driver fetch call selected by the resolved mode: fetchone for
one, fetchmany with the resolved fetch count for many, fetchall for all,
the call result being returned unchanged. -/
theorem c6_fetch_dispatch (fs : MySQLFetch) (d : Driver) (qstr : String)
    (fc : Option Int) (cm : Option Bool) (ch : Option String)
    (ct : Option CursorType) (cc : CursorClass)
    (hq : (qstr == "") = false)
    (hcc : resolveCursorClass (resolve fs.cursor_type ct) = some cc)
    (hb : cc.isBuiltin = true)
    (hc : d.connectErr = none) (he : d.executeErr = none)
    (hfe : d.fetchErr = none) (hcm : d.commitErr = none) :
    ((fs.run d (some qstr) (some "one") fc cm ch ct).1.filter
        Event.isFetchCall = [Event.fetchone] ∧
     (fs.run d (some qstr) (some "one") fc cm ch ct).2 =
        .ok (.one d.fetchoneVal)) ∧
    ((fs.run d (some qstr) (some "many") fc cm ch ct).1.filter
        Event.isFetchCall = [Event.fetchmany (resolve fs.fetch_count fc)] ∧
     (fs.run d (some qstr) (some "many") fc cm ch ct).2 =
        .ok (.rows (d.fetchmanyVal (resolve fs.fetch_count fc)))) ∧
    ((fs.run d (some qstr) (some "all") fc cm ch ct).1.filter
        Event.isFetchCall = [Event.fetchall] ∧
     (fs.run d (some qstr) (some "all") fc cm ch ct).2 =
        .ok (.rows d.fetchallVal)) := by
  refine ⟨⟨?_, ?_⟩, ⟨?_, ?_⟩, ⟨?_, ?_⟩⟩
  · rw [fetch_run_eq_body fs d qstr (some "one") fc cm ch ct cc hq rfl hcc hb]
    rw [fetch_body_fetchcalls fs d qstr _ _ _ cc hc he]
    rfl
  · rw [fetch_run_eq_body fs d qstr (some "one") fc cm ch ct cc hq rfl hcc hb]
    rw [fetch_body_result fs d qstr _ _ _ cc hc he hfe hcm]
    rfl
  · rw [fetch_run_eq_body fs d qstr (some "many") fc cm ch ct cc hq rfl hcc hb]
    rw [fetch_body_fetchcalls fs d qstr _ _ _ cc hc he]
    rfl
  · rw [fetch_run_eq_body fs d qstr (some "many") fc cm ch ct cc hq rfl hcc hb]
    rw [fetch_body_result fs d qstr _ _ _ cc hc he hfe hcm]
    rfl
  · rw [fetch_run_eq_body fs d qstr (some "all") fc cm ch ct cc hq rfl hcc hb]
    rw [fetch_body_fetchcalls fs d qstr _ _ _ cc hc he]
    rfl
  · rw [fetch_run_eq_body fs d qstr (some "all") fc cm ch ct cc hq rfl hcc hb]
    rw [fetch_body_result fs d qstr _ _ _ cc hc he hfe hcm]
    rfl

/-- Claim C6 witness: on the all-successful driver the three modes return
the fetchone, fetchmany and fetchall values of the driver respectively,
each produced by exactly one fetch call. -/
theorem c6_fetch_dispatch_witness :
    ((("SELECT 1" : String) == "") = false ∧
     resolveCursorClass (resolve fTask.cursor_type none) =
       some CursorClass.cursor ∧
     CursorClass.cursor.isBuiltin = true ∧
     dOk.connectErr = none ∧ dOk.executeErr = none ∧
     dOk.fetchErr = none ∧ dOk.commitErr = none) ∧
    (((fTask.run dOk (some "SELECT 1") (some "one") (some 2) none none
        none).1.filter Event.isFetchCall = [Event.fetchone] ∧
      (fTask.run dOk (some "SELECT 1") (some "one") (some 2) none none
        none).2 = .ok (.one (some 5))) ∧
     ((fTask.run dOk (some "SELECT 1") (some "many") (some 2) none none
        none).1.filter Event.isFetchCall = [Event.fetchmany 2] ∧
      (fTask.run dOk (some "SELECT 1") (some "many") (some 2) none none
        none).2 = .ok (.rows [1, 2])) ∧
     ((fTask.run dOk (some "SELECT 1") (some "all") (some 2) none none
        none).1.filter Event.isFetchCall = [Event.fetchall] ∧
      (fTask.run dOk (some "SELECT 1") (some "all") (some 2) none none
        none).2 = .ok (.rows [1, 2, 3]))) :=
  ⟨⟨by decide, by decide, by decide, by decide, by decide, by decide,
      by decide⟩,
    c6_fetch_dispatch fTask dOk "SELECT 1" (some 2) none none none
      CursorClass.cursor (by decide) (by decide) (by decide) (by decide)
      (by decide) (by decide) (by decide)⟩

/-- Claim C7: with resolved commit false no commit is ever invoked, on any
path; with commit true and successful execute/fetch the full trace is
connect, execute, (fetch), commit, close, log: commit happens exactly
once, after the execute/fetch call and before close. -/
theorem c7_commit_semantics (es : MySQLExecute) (fs : MySQLFetch)
    (d : Driver) (qa qa2 : Option String) (qstr : String)
    (f f2 : Option String) (fc fc2 : Option Int) (ch ch2 : Option String)
    (ct ct2 : Option CursorType) (cc : CursorClass)
    (hq : (qstr == "") = false)
    (hfv : (resolve fs.fetch f == "one" || resolve fs.fetch f == "many" ||
            resolve fs.fetch f == "all") = true)
    (hcc : resolveCursorClass (resolve fs.cursor_type ct) = some cc)
    (hb : cc.isBuiltin = true)
    (hc : d.connectErr = none) (he : d.executeErr = none)
    (hfe : d.fetchErr = none) :
    (es.run d qa (some false) ch).1.filter Event.isCommit = [] ∧
    (fs.run d qa2 f2 fc2 (some false) ch2 ct2).1.filter Event.isCommit = [] ∧
    (es.run d (some qstr) (some true) ch).1 =
      [Event.connect es.host es.port es.user es.password es.db_name
        es.charset none, .execute qstr, .commit, .close,
       match d.commitErr with
       | some e => Event.logDebug "Execute Error: %s" (toString e)
       | none =>
           Event.logDebug "Execute Results: %s" (toString d.executeRows)] ∧
    (fs.run d (some qstr) f fc (some true) ch ct).1 =
      [Event.connect fs.host fs.port fs.user fs.password fs.db_name
        fs.charset (some cc), .execute qstr,
       (if resolve fs.fetch f == "all" then Event.fetchall
        else if resolve fs.fetch f == "many" then
          Event.fetchmany (resolve fs.fetch_count fc)
        else Event.fetchone),
       .commit, .close,
       match d.commitErr with
       | some e => Event.logDebug "Fetch Error: %s" (toString e)
       | none => Event.logDebug "Fetch Results: %s"
           (if resolve fs.fetch f == "all" then
              (FetchResult.rows d.fetchallVal).pyStr
            else if resolve fs.fetch f == "many" then
              (FetchResult.rows (d.fetchmanyVal
                (resolve fs.fetch_count fc))).pyStr
            else (FetchResult.one d.fetchoneVal).pyStr)] := by
  refine ⟨execute_run_commit_false es d qa ch,
    fetch_run_commit_false fs d qa2 f2 fc2 ch2 ct2, ?_, ?_⟩
  · rw [execute_run_eq_body es d qstr (some true) ch hq]
    exact execute_body_commit_trace es d qstr hc he
  · rw [fetch_run_eq_body fs d qstr f fc (some true) ch ct cc hq hfv hcc hb]
    exact fetch_body_commit_trace fs d qstr _ _ cc hc he hfe

/-- Claim C7 witness: with commit false neither task emits a commit;
with commit true both traces carry exactly one commit between the
execute/fetch call and close. -/
theorem c7_commit_semantics_witness :
    ((("q" : String) == "") = false ∧
     (resolve fTask.fetch (some "many") == "one" ||
      resolve fTask.fetch (some "many") == "many" ||
      resolve fTask.fetch (some "many") == "all") = true ∧
     resolveCursorClass (resolve fTask.cursor_type none) =
       some CursorClass.cursor ∧
     CursorClass.cursor.isBuiltin = true ∧
     dOk.connectErr = none ∧ dOk.executeErr = none ∧ dOk.fetchErr = none) ∧
    ((eTask.run dOk none (some false) none).1.filter Event.isCommit = [] ∧
     (fTask.run dOk none none none (some false) none none).1.filter
        Event.isCommit = [] ∧
     (eTask.run dOk (some "q") (some true) none).1 =
       [Event.connect "h" 3306 "u" "pw" "db" "utf8mb4" none, .execute "q",
        .commit, .close, .logDebug "Execute Results: %s" "3"] ∧
     (fTask.run dOk (some "q") (some "many") (some 2) (some true) none
        none).1 =
       [Event.connect "h" 3306 "u" "pw" "db" "utf8mb4"
          (some CursorClass.cursor), .execute "q", Event.fetchmany 2,
        .commit, .close, .logDebug "Fetch Results: %s" "[1, 2]"]) :=
  ⟨⟨by decide, by decide, by decide, by decide, by decide, by decide,
      by decide⟩,
    c7_commit_semantics eTask fTask dOk none none "q" (some "many") none
      (some 2) none none none none none CursorClass.cursor (by decide)
      (by decide) (by decide) (by decide) (by decide) (by decide)
      (by decide)⟩

/-- Claim C8: on every call in which the connection is opened, close is
invoked exactly once, on the success path and on every failure path; any
driver error raised after connect is logged at debug level and the result
is that very driver error, re-raised unwrapped and untranslated. -/
theorem c8_close_once_and_reraise (es : MySQLExecute) (fs : MySQLFetch)
    (d : Driver) (qstr : String) (f : Option String) (fc : Option Int)
    (cm : Option Bool) (ch : Option String) (ct : Option CursorType)
    (cc : CursorClass)
    (hq : (qstr == "") = false)
    (hfv : (resolve fs.fetch f == "one" || resolve fs.fetch f == "many" ||
            resolve fs.fetch f == "all") = true)
    (hcc : resolveCursorClass (resolve fs.cursor_type ct) = some cc)
    (hb : cc.isBuiltin = true)
    (hc : d.connectErr = none) :
    ((es.run d (some qstr) cm ch).1.filter Event.isClose = [Event.close] ∧
     driverErrLogged "Execute Error: %s" (es.run d (some qstr) cm ch) ∧
     errIsFromDriver d (es.run d (some qstr) cm ch)) ∧
    ((fs.run d (some qstr) f fc cm ch ct).1.filter Event.isClose =
        [Event.close] ∧
     driverErrLogged "Fetch Error: %s" (fs.run d (some qstr) f fc cm ch ct) ∧
     errIsFromDriver d (fs.run d (some qstr) f fc cm ch ct)) := by
  rw [execute_run_eq_body es d qstr cm ch hq,
      fetch_run_eq_body fs d qstr f fc cm ch ct cc hq hfv hcc hb]
  exact ⟨⟨execute_body_close_once es d qstr _ hc,
      execute_body_err_logged es d qstr _ hc,
      execute_body_err_from_driver es d qstr _ hc⟩,
    ⟨fetch_body_close_once fs d qstr _ _ _ cc hc,
      fetch_body_err_logged fs d qstr _ _ _ cc hc,
      fetch_body_err_from_driver fs d qstr _ _ _ cc hc⟩⟩

/-- Claim C8 witness: on the driver whose execute raises error 7 both
tasks close exactly once, log the error at debug level, and re-raise
that driver error. -/
theorem c8_close_once_and_reraise_witness :
    ((("q" : String) == "") = false ∧
     (resolve fTask.fetch none == "one" || resolve fTask.fetch none == "many" ||
      resolve fTask.fetch none == "all") = true ∧
     resolveCursorClass (resolve fTask.cursor_type none) =
       some CursorClass.cursor ∧
     CursorClass.cursor.isBuiltin = true ∧
     dExecErr.connectErr = none) ∧
    (((eTask.run dExecErr (some "q") none none).1.filter Event.isClose =
        [Event.close] ∧
      driverErrLogged "Execute Error: %s" (eTask.run dExecErr (some "q")
        none none) ∧
      errIsFromDriver dExecErr (eTask.run dExecErr (some "q") none none)) ∧
     ((fTask.run dExecErr (some "q") none none none none none).1.filter
        Event.isClose = [Event.close] ∧
      driverErrLogged "Fetch Error: %s" (fTask.run dExecErr (some "q") none
        none none none none) ∧
      errIsFromDriver dExecErr (fTask.run dExecErr (some "q") none none none
        none none))) :=
  ⟨⟨by decide, by decide, by decide, by decide, by decide⟩,
    c8_close_once_and_reraise eTask fTask dExecErr "q" none none none none
      none CursorClass.cursor (by decide) (by decide) (by decide) (by decide)
      (by decide)⟩

/-- Claim C9: fetch count is not validated: any integer, zero and negative
values included, is forwarded unchanged to fetchmany when fetch is many,
and has no effect whatsoever on the call when fetch is one or all. -/
theorem c9_fetch_count_unvalidated (fs : MySQLFetch) (d : Driver)
    (qstr : String) (n n' : Int) (cm : Option Bool) (ch : Option String)
    (ct : Option CursorType) (cc : CursorClass)
    (hq : (qstr == "") = false)
    (hcc : resolveCursorClass (resolve fs.cursor_type ct) = some cc)
    (hb : cc.isBuiltin = true)
    (hc : d.connectErr = none) (he : d.executeErr = none) :
    (fs.run d (some qstr) (some "many") (some n) cm ch ct).1.filter
        Event.isFetchCall = [Event.fetchmany n] ∧
    fs.run d (some qstr) (some "one") (some n) cm ch ct =
      fs.run d (some qstr) (some "one") (some n') cm ch ct ∧
    fs.run d (some qstr) (some "all") (some n) cm ch ct =
      fs.run d (some qstr) (some "all") (some n') cm ch ct := by
  refine ⟨?_, ?_, ?_⟩
  · rw [fetch_run_eq_body fs d qstr (some "many") (some n) cm ch ct cc hq
        rfl hcc hb]
    rw [fetch_body_fetchcalls fs d qstr _ _ _ cc hc he]
    rfl
  · rw [fetch_run_eq_body fs d qstr (some "one") (some n) cm ch ct cc hq
        rfl hcc hb,
      fetch_run_eq_body fs d qstr (some "one") (some n') cm ch ct cc hq
        rfl hcc hb]
    exact fetch_body_one_ignores_count fs d qstr n n' _ cc
  · rw [fetch_run_eq_body fs d qstr (some "all") (some n) cm ch ct cc hq
        rfl hcc hb,
      fetch_run_eq_body fs d qstr (some "all") (some n') cm ch ct cc hq
        rfl hcc hb]
    exact fetch_body_all_ignores_count fs d qstr n n' _ cc

/-- Claim C9 witness: the negative count -3 is forwarded unchanged to
fetchmany, and under fetch one and all the calls at counts -3 and 0 are
identical. -/
theorem c9_fetch_count_unvalidated_witness :
    ((("q" : String) == "") = false ∧
     resolveCursorClass (resolve fTask.cursor_type none) =
       some CursorClass.cursor ∧
     CursorClass.cursor.isBuiltin = true ∧
     dOk.connectErr = none ∧ dOk.executeErr = none) ∧
    ((fTask.run dOk (some "q") (some "many") (some (-3)) none none
        none).1.filter Event.isFetchCall = [Event.fetchmany (-3)] ∧
     fTask.run dOk (some "q") (some "one") (some (-3)) none none none =
       fTask.run dOk (some "q") (some "one") (some 0) none none none ∧
     fTask.run dOk (some "q") (some "all") (some (-3)) none none none =
       fTask.run dOk (some "q") (some "all") (some 0) none none none) :=
  ⟨⟨by decide, by decide, by decide, by decide, by decide⟩,
    c9_fetch_count_unvalidated fTask dOk "q" (-3) 0 none none none
      CursorClass.cursor (by decide) (by decide) (by decide) (by decide)
      (by decide)⟩

/-- Claim C10: passing one of the two built-in cursor classes directly as
the callable cursor_type produces exactly the same call (same trace and
same result on every driver and argument list) as passing the
corresponding string name. -/
theorem c10_builtin_callable_equals_string (fs : MySQLFetch) (d : Driver)
    (qa : Option String) (f : Option String) (fc : Option Int)
    (cm : Option Bool) (ch : Option String) :
    fs.run d qa f fc cm ch (some (CursorType.callable CursorClass.cursor)) =
      fs.run d qa f fc cm ch (some (CursorType.str "cursor")) ∧
    fs.run d qa f fc cm ch
        (some (CursorType.callable CursorClass.dictCursor)) =
      fs.run d qa f fc cm ch (some (CursorType.str "dictcursor")) :=
  ⟨rfl, rfl⟩

end MySQLTasks
